import Mathlib

/-!
Verification of the leader-election / heartbeat core of the Raft simulation in
src/high-level-design/05-advanced-concepts/05-consensus-raft/main.go.

The Go file implements one node type (RaftNode) with four event handlers, each
of which runs atomically under the per-node mutex:
  startElection      (lines 118-149, run when the election timer fires),
  handleRequestVote  (lines 151-192),
  receiveVote        (lines 194-212, the body of the vote-grant goroutine),
  handleHeartbeat    (lines 237-253),
plus one iteration of the heartbeat loop sendHeartbeats (lines 216-235) and the
peer lookup getPeer (lines 256-261).

The shallow embedding below translates each handler into a pure function on a
node record.  The Go timer (time.Timer) is modelled by two fields:
timerArmed is true while a scheduled fire is pending (a fire consumes it, a
Reset or NewTimer re-arms it) and timerResets counts the Reset/NewTimer calls.
A cluster is a list of node records plus a pool of in-flight events; one
inductive step relation delivers one event to one node atomically, which is
exactly the granularity the mutex gives the Go code.  The vote-grant goroutine
of handleRequestVote carries no data to receiveVote, so the voteGrant message
carries only the target id; its grantTerm field is provenance-only ghost data
(the term at which the voter granted) and is never read by any handler.
-/

namespace Raft

/-- Role of a node, RaftState in the source (lines 11-17). -/
inductive RaftState
  | Follower
  | Candidate
  | Leader
deriving DecidableEq

/-- Per-node state, struct RaftNode (lines 51-68).  The Go electionTimer is
modelled by timerArmed (a pending fire exists) and timerResets (number of
NewTimer/Reset calls so far); the peers slice is passed separately as the list
of peer ids, and the channels become the cluster-level message pool. -/
structure RaftNode where
  id : Int
  currentTerm : Int
  votedFor : Int
  state : RaftState
  timerArmed : Bool
  timerResets : Nat
deriving DecidableEq

/-- RequestVoteArgs (lines 33-36). -/
structure RequestVoteArgs where
  Term : Int
  CandidateID : Int
deriving DecidableEq

/-- RequestVoteReply (lines 39-42). -/
structure RequestVoteReply where
  Term : Int
  VoteGranted : Bool
deriving DecidableEq

/-- HeartbeatArgs (lines 45-48). -/
structure HeartbeatArgs where
  Term : Int
  LeaderID : Int
deriving DecidableEq

/-- Effect of rn.electionTimer.Reset(...) or resetElectionTimer (lines
104-114, 175-177, 249-251): the timer is re-armed and one more reset call is
recorded. -/
def resetTimer (n : RaftNode) : RaftNode :=
  { n with timerArmed := true, timerResets := n.timerResets + 1 }

/-- startElection (lines 118-149).  A Leader returns immediately.  Otherwise
the node becomes Candidate, increments currentTerm, votes for itself and
sends RequestVote with the new term to every peer whose id differs from its
own.  The function does not touch the timer fields: the source contains no
reset of the election timer on this path. -/
def startElection (n : RaftNode) (peerIds : List Int) :
    RaftNode × List (Int × RequestVoteArgs) :=
  if n.state = RaftState.Leader then (n, [])
  else
    ({ n with state := RaftState.Candidate,
              currentTerm := n.currentTerm + 1,
              votedFor := n.id },
     (peerIds.filter (fun p => p ≠ n.id)).map
       (fun p => (p, ⟨n.currentTerm + 1, n.id⟩)))

/-- Lines 164-191 of handleRequestVote: the stale-term early return, the
grant check against votedFor, the timer reset on grant, and the spawned
vote-grant goroutine, evaluated on the node n1 that already adopted a higher
term if there was one.  replyTerm is the reply.Term captured at entry (line
155).  The third component is the CandidateID the grant goroutine targets
(some on grant, none otherwise). -/
def voteGrantCheck (n1 : RaftNode) (replyTerm : Int) (args : RequestVoteArgs) :
    RaftNode × RequestVoteReply × Option Int :=
  if args.Term < n1.currentTerm then (n1, ⟨replyTerm, false⟩, none)
  else if n1.votedFor = -1 ∨ n1.votedFor = args.CandidateID then
    (resetTimer { n1 with votedFor := args.CandidateID },
     ⟨replyTerm, true⟩, some args.CandidateID)
  else (n1, ⟨replyTerm, false⟩, none)

/-- handleRequestVote (lines 151-192).  First the higher-term adoption block
(lines 157-162: adopt the term, step down to Follower, clear votedFor), then
the checks of voteGrantCheck. -/
def handleRequestVote (n : RaftNode) (args : RequestVoteArgs) :
    RaftNode × RequestVoteReply × Option Int :=
  voteGrantCheck
    (if args.Term > n.currentTerm then
       { n with currentTerm := args.Term, state := RaftState.Follower, votedFor := -1 }
     else n)
    n.currentTerm args

/-- receiveVote (lines 194-212).  A node that is not a Candidate ignores the
grant; a Candidate becomes Leader on this single grant.  The source counts no
votes and receives no term with the grant.  (The go rn.sendHeartbeats() it
spawns is modelled by the hbTick step being enabled while the node is
Leader.) -/
def receiveVote (n : RaftNode) : RaftNode :=
  if n.state ≠ RaftState.Candidate then n
  else { n with state := RaftState.Leader }

/-- One iteration of the sendHeartbeats loop (lines 216-235): under the lock
the role is observed; a non-Leader iteration returns none (the loop exits and
sends nothing), a Leader iteration emits Heartbeat(currentTerm, id) to every
peer whose id differs from its own. -/
def sendHeartbeatsIter (n : RaftNode) (peerIds : List Int) :
    Option (List (Int × HeartbeatArgs)) :=
  if n.state ≠ RaftState.Leader then none
  else some ((peerIds.filter (fun p => p ≠ n.id)).map
    (fun p => (p, ⟨n.currentTerm, n.id⟩)))

/-- handleHeartbeat (lines 237-253).  On args.Term >= currentTerm the node
adopts the term, becomes Follower and resets its election timer; votedFor is
not touched anywhere in this handler.  A lower term is ignored. -/
def handleHeartbeat (n : RaftNode) (args : HeartbeatArgs) : RaftNode :=
  if args.Term ≥ n.currentTerm then
    resetTimer { n with currentTerm := args.Term, state := RaftState.Follower }
  else n

/-- getPeer (lines 256-261): first peer with the given id, none when no peer
carries it (nil in Go). -/
def getPeer : List RaftNode → Int → Option RaftNode
  | [], _ => none
  | p :: ps, i => if p.id = i then some p else getPeer ps i

/-- The vote-grant goroutine body of handleRequestVote (lines 185-190):
rn.getPeer(args.CandidateID).receiveVote().  In Go the receiveVote call is a
nil dereference when getPeer returns nil; here the Option records whether the
lookup succeeded, so the path is modelled as total with the deref precondition
visible as isSome. -/
def grantPath (peers : List RaftNode) (cid : Int) : Option RaftNode :=
  (getPeer peers cid).map receiveVote

/-- In-flight events of the cluster.  reqVote and heartbeat model the
voteReqChan/heartbeatChan sends; voteGrant models a spawned vote-grant
goroutine that has not run yet.  grantTerm is ghost provenance (the args.Term
at which the voter granted); no handler reads it, exactly as the Go
receiveVote receives no term. -/
inductive Msg
  | reqVote (dst : Int) (args : RequestVoteArgs)
  | voteGrant (dst : Int) (grantTerm : Int)
  | heartbeat (dst : Int) (args : HeartbeatArgs)
deriving DecidableEq

/-- A cluster: the node records (main wires peers as the full node list) and
the pool of undelivered events. -/
structure Config where
  nodes : List RaftNode
  net : List Msg
deriving DecidableEq

/-- Node with a given id, as the goroutines look nodes up by id. -/
def getNode (c : Config) (i : Int) : Option RaftNode :=
  c.nodes.find? (fun nd => nd.id == i)

/-- Replace the node with id i. -/
def setNode (c : Config) (i : Int) (n : RaftNode) : List RaftNode :=
  c.nodes.map (fun nd => if nd.id = i then n else nd)

def rvMsgs (l : List (Int × RequestVoteArgs)) : List Msg :=
  l.map (fun p => Msg.reqVote p.1 p.2)

def hbMsgs (l : List (Int × HeartbeatArgs)) : List Msg :=
  l.map (fun p => Msg.heartbeat p.1 p.2)

/-- Message produced by the spawned grant goroutine of handleRequestVote, if
one was spawned: it targets the CandidateID, tagged with the ghost grant
term. -/
def grantMsgs (g : Option Int) (t : Int) : List Msg :=
  match g with
  | some cid => [Msg.voteGrant cid t]
  | none => []

/-- One atomic cluster step: a timer fire followed by startElection, or the
delivery of one in-flight event to its handler (each handler holds the mutex
of its node for its whole body), or one iteration of a running heartbeat
loop.  A timer fire requires an armed timer and consumes the arming, as a Go
time.Timer delivers one fire per arming. -/
inductive Step (peerIds : List Int) : Config → Config → Prop
  | timeout (c : Config) (i : Int) (n : RaftNode) :
      getNode c i = some n → n.timerArmed = true →
      Step peerIds c
        ⟨setNode c i (startElection { n with timerArmed := false } peerIds).1,
         c.net ++ rvMsgs (startElection { n with timerArmed := false } peerIds).2⟩
  | deliverReqVote (c : Config) (i : Int) (n : RaftNode) (args : RequestVoteArgs) :
      Msg.reqVote i args ∈ c.net → getNode c i = some n →
      Step peerIds c
        ⟨setNode c i (handleRequestVote n args).1,
         (c.net.erase (Msg.reqVote i args)) ++
           grantMsgs (handleRequestVote n args).2.2 args.Term⟩
  | deliverGrant (c : Config) (i : Int) (t : Int) (n : RaftNode) :
      Msg.voteGrant i t ∈ c.net → getNode c i = some n →
      Step peerIds c ⟨setNode c i (receiveVote n), c.net.erase (Msg.voteGrant i t)⟩
  | deliverHeartbeat (c : Config) (i : Int) (n : RaftNode) (args : HeartbeatArgs) :
      Msg.heartbeat i args ∈ c.net → getNode c i = some n →
      Step peerIds c
        ⟨setNode c i (handleHeartbeat n args), c.net.erase (Msg.heartbeat i args)⟩
  | hbTick (c : Config) (i : Int) (n : RaftNode) (out : List (Int × HeartbeatArgs)) :
      getNode c i = some n → sendHeartbeatsIter n peerIds = some out →
      Step peerIds c ⟨c.nodes, c.net ++ hbMsgs out⟩

/-- Reachability of one cluster configuration from another under any
interleaving of the atomic steps. -/
def Reachable (ids : List Int) : Config → Config → Prop :=
  Relation.ReflTransGen (Step ids)

/-- A node as produced by NewRaftNode (lines 70-80) followed by the
resetElectionTimer call of Start (line 86): Follower, term 0, votedFor -1
(null), timer armed once. -/
def initNode (i : Int) : RaftNode :=
  ⟨i, 0, -1, RaftState.Follower, true, 1⟩

/-- The ids of the three-node cluster built in main (lines 263-280). -/
def ids3 : List Int := [1, 2, 3]

/-- The started three-node cluster of main, before any timer fires. -/
def c0 : Config := ⟨[initNode 1, initNode 2, initNode 3], []⟩

/-- Trace configuration after the timer of node 1 fires: node 1 is Candidate
at term 1 and its two RequestVotes are in flight. -/
def c1 : Config :=
  ⟨[⟨1, 1, 1, RaftState.Candidate, false, 1⟩, initNode 2, initNode 3],
   [Msg.reqVote 2 ⟨1, 1⟩, Msg.reqVote 3 ⟨1, 1⟩]⟩

/-- After node 2 handles RequestVote(1,1): it adopts term 1, grants, and the
vote-grant goroutine towards node 1 (granted at term 1) is pending. -/
def c2 : Config :=
  ⟨[⟨1, 1, 1, RaftState.Candidate, false, 1⟩, ⟨2, 1, 1, RaftState.Follower, true, 2⟩,
    initNode 3],
   [Msg.reqVote 3 ⟨1, 1⟩, Msg.voteGrant 1 1]⟩

/-- After the timer of node 2 fires: node 2 is Candidate at term 2. -/
def c3 : Config :=
  ⟨[⟨1, 1, 1, RaftState.Candidate, false, 1⟩, ⟨2, 2, 2, RaftState.Candidate, false, 2⟩,
    initNode 3],
   [Msg.reqVote 3 ⟨1, 1⟩, Msg.voteGrant 1 1, Msg.reqVote 1 ⟨2, 2⟩, Msg.reqVote 3 ⟨2, 2⟩]⟩

/-- After node 1 handles RequestVote(2,2): it adopts term 2, becomes Follower,
grants node 2 and re-arms its timer. -/
def c4 : Config :=
  ⟨[⟨1, 2, 2, RaftState.Follower, true, 2⟩, ⟨2, 2, 2, RaftState.Candidate, false, 2⟩,
    initNode 3],
   [Msg.reqVote 3 ⟨1, 1⟩, Msg.voteGrant 1 1, Msg.reqVote 3 ⟨2, 2⟩, Msg.voteGrant 2 2]⟩

/-- After node 3 handles RequestVote(2,2): it adopts term 2, grants node 2 and
re-arms its timer. -/
def c5 : Config :=
  ⟨[⟨1, 2, 2, RaftState.Follower, true, 2⟩, ⟨2, 2, 2, RaftState.Candidate, false, 2⟩,
    ⟨3, 2, 2, RaftState.Follower, true, 2⟩],
   [Msg.reqVote 3 ⟨1, 1⟩, Msg.voteGrant 1 1, Msg.voteGrant 2 2, Msg.voteGrant 2 2]⟩

/-- After the timer of node 1 fires again: node 1 is Candidate at term 3.  The
vote-grant from its term-1 candidacy is still in flight. -/
def c6 : Config :=
  ⟨[⟨1, 3, 1, RaftState.Candidate, false, 2⟩, ⟨2, 2, 2, RaftState.Candidate, false, 2⟩,
    ⟨3, 2, 2, RaftState.Follower, true, 2⟩],
   [Msg.reqVote 3 ⟨1, 1⟩, Msg.voteGrant 1 1, Msg.voteGrant 2 2, Msg.voteGrant 2 2,
    Msg.reqVote 2 ⟨3, 1⟩, Msg.reqVote 3 ⟨3, 1⟩]⟩

/-- After the timer of node 3 fires: node 3 is Candidate at term 3 as well. -/
def c7 : Config :=
  ⟨[⟨1, 3, 1, RaftState.Candidate, false, 2⟩, ⟨2, 2, 2, RaftState.Candidate, false, 2⟩,
    ⟨3, 3, 3, RaftState.Candidate, false, 2⟩],
   [Msg.reqVote 3 ⟨1, 1⟩, Msg.voteGrant 1 1, Msg.voteGrant 2 2, Msg.voteGrant 2 2,
    Msg.reqVote 2 ⟨3, 1⟩, Msg.reqVote 3 ⟨3, 1⟩, Msg.reqVote 1 ⟨3, 3⟩, Msg.reqVote 2 ⟨3, 3⟩]⟩

/-- After the stale term-1 vote-grant reaches node 1, now a Candidate at
term 3: receiveVote checks only the role, so node 1 becomes Leader at
term 3. -/
def c8 : Config :=
  ⟨[⟨1, 3, 1, RaftState.Leader, false, 2⟩, ⟨2, 2, 2, RaftState.Candidate, false, 2⟩,
    ⟨3, 3, 3, RaftState.Candidate, false, 2⟩],
   [Msg.reqVote 3 ⟨1, 1⟩, Msg.voteGrant 2 2, Msg.voteGrant 2 2,
    Msg.reqVote 2 ⟨3, 1⟩, Msg.reqVote 3 ⟨3, 1⟩, Msg.reqVote 1 ⟨3, 3⟩, Msg.reqVote 2 ⟨3, 3⟩]⟩

/-- After node 2 handles RequestVote(3,3): it adopts term 3 and grants
node 3. -/
def c9 : Config :=
  ⟨[⟨1, 3, 1, RaftState.Leader, false, 2⟩, ⟨2, 3, 3, RaftState.Follower, true, 3⟩,
    ⟨3, 3, 3, RaftState.Candidate, false, 2⟩],
   [Msg.reqVote 3 ⟨1, 1⟩, Msg.voteGrant 2 2, Msg.voteGrant 2 2,
    Msg.reqVote 2 ⟨3, 1⟩, Msg.reqVote 3 ⟨3, 1⟩, Msg.reqVote 1 ⟨3, 3⟩, Msg.voteGrant 3 3]⟩

/-- After that fresh grant reaches node 3: nodes 1 and 3 are both Leader at
currentTerm 3. -/
def c10 : Config :=
  ⟨[⟨1, 3, 1, RaftState.Leader, false, 2⟩, ⟨2, 3, 3, RaftState.Follower, true, 3⟩,
    ⟨3, 3, 3, RaftState.Leader, false, 2⟩],
   [Msg.reqVote 3 ⟨1, 1⟩, Msg.voteGrant 2 2, Msg.voteGrant 2 2,
    Msg.reqVote 2 ⟨3, 1⟩, Msg.reqVote 3 ⟨3, 1⟩, Msg.reqVote 1 ⟨3, 3⟩]⟩

/-- A single-node cluster, the N = 1 case of the quorum claim. -/
def soloIds : List Int := [1]

/-- The started single-node cluster. -/
def solo : Config := ⟨[initNode 1], []⟩

/-- The single-node cluster right after its only timeout: the node is a
Candidate at term 1 and no message is in flight. -/
def solo1 : Config := ⟨[⟨1, 1, 1, RaftState.Candidate, false, 1⟩], []⟩

/-- Invariant of the single-node cluster: the only node keeps id 1 and is
never Leader, and no message is ever in flight. -/
def soloInv (c : Config) : Prop :=
  (∀ m ∈ c.nodes, m.id = 1 ∧ m.state ≠ RaftState.Leader) ∧ c.net = []

/-- Sample follower at term 5 used by concrete witnesses. -/
def wNode : RaftNode := ⟨1, 5, -1, RaftState.Follower, true, 1⟩

/-- Sample RequestVote with a stale term (3 < 5). -/
def wRV : RequestVoteArgs := ⟨3, 2⟩

/-- Sample Heartbeat with a stale term (3 < 5). -/
def wHB : HeartbeatArgs := ⟨3, 2⟩

/-- Sample follower that voted for node 3 in term 1. -/
def hbVictim : RaftNode := ⟨2, 1, 3, RaftState.Follower, true, 1⟩

/-- Sample Heartbeat carrying the strictly higher term 5. -/
def hbHigh : HeartbeatArgs := ⟨5, 9⟩

/-- Sample Leader at term 1. -/
def demoLeader : RaftNode := ⟨1, 1, 1, RaftState.Leader, false, 1⟩

/-- Sample Candidate at term 4. -/
def sampleCand : RaftNode := ⟨2, 4, 2, RaftState.Candidate, false, 2⟩

theorem step_congr {ids : List Int} {a b b2 : Config} (h : Step ids a b)
    (e : b = b2) : Step ids a b2 := e ▸ h

theorem trace_step_1 : Step ids3 c0 c1 :=
  step_congr (@Step.timeout ids3 c0 1 (initNode 1) (by decide) (by decide)) (by decide)

theorem trace_step_2 : Step ids3 c1 c2 :=
  step_congr
    (@Step.deliverReqVote ids3 c1 2 (initNode 2) ⟨1, 1⟩ (by decide) (by decide))
    (by decide)

theorem trace_step_3 : Step ids3 c2 c3 :=
  step_congr
    (@Step.timeout ids3 c2 2 ⟨2, 1, 1, RaftState.Follower, true, 2⟩ (by decide) (by decide))
    (by decide)

theorem trace_step_4 : Step ids3 c3 c4 :=
  step_congr
    (@Step.deliverReqVote ids3 c3 1 ⟨1, 1, 1, RaftState.Candidate, false, 1⟩ ⟨2, 2⟩
      (by decide) (by decide))
    (by decide)

theorem trace_step_5 : Step ids3 c4 c5 :=
  step_congr
    (@Step.deliverReqVote ids3 c4 3 (initNode 3) ⟨2, 2⟩ (by decide) (by decide))
    (by decide)

theorem trace_step_6 : Step ids3 c5 c6 :=
  step_congr
    (@Step.timeout ids3 c5 1 ⟨1, 2, 2, RaftState.Follower, true, 2⟩ (by decide) (by decide))
    (by decide)

theorem trace_step_7 : Step ids3 c6 c7 :=
  step_congr
    (@Step.timeout ids3 c6 3 ⟨3, 2, 2, RaftState.Follower, true, 2⟩ (by decide) (by decide))
    (by decide)

theorem trace_step_8 : Step ids3 c7 c8 :=
  step_congr
    (@Step.deliverGrant ids3 c7 1 1 ⟨1, 3, 1, RaftState.Candidate, false, 2⟩
      (by decide) (by decide))
    (by decide)

theorem trace_step_9 : Step ids3 c8 c9 :=
  step_congr
    (@Step.deliverReqVote ids3 c8 2 ⟨2, 2, 2, RaftState.Candidate, false, 2⟩ ⟨3, 3⟩
      (by decide) (by decide))
    (by decide)

theorem trace_step_10 : Step ids3 c9 c10 :=
  step_congr
    (@Step.deliverGrant ids3 c9 3 3 ⟨3, 3, 3, RaftState.Candidate, false, 2⟩
      (by decide) (by decide))
    (by decide)

theorem reach_c7 : Reachable ids3 c0 c7 :=
  Relation.ReflTransGen.head trace_step_1
    (Relation.ReflTransGen.head trace_step_2
      (Relation.ReflTransGen.head trace_step_3
        (Relation.ReflTransGen.head trace_step_4
          (Relation.ReflTransGen.head trace_step_5
            (Relation.ReflTransGen.head trace_step_6
              (Relation.ReflTransGen.head trace_step_7 Relation.ReflTransGen.refl))))))

/-- Claim C1: the claim (no two distinct nodes are simultaneously Leader with
equal currentTerm, in any reachable state under any interleaving) is violated
by the code.  In the three-node cluster that main builds, the interleaving
c0 to c10 ends with node 1 and node 3 both in role Leader at currentTerm 3:
node 1 is promoted by a stale vote-grant of its term-1 candidacy, because
receiveVote promotes any Candidate on any single grant, without a vote count,
a quorum computation, or a term check. -/
theorem two_leaders_same_term_reachable :
    Reachable ids3 c0 c10 ∧
    ∃ a, a ∈ c10.nodes ∧ ∃ b, b ∈ c10.nodes ∧
      a.id ≠ b.id ∧ a.state = RaftState.Leader ∧ b.state = RaftState.Leader ∧
      a.currentTerm = b.currentTerm := by
  constructor
  · exact Relation.ReflTransGen.tail
      (Relation.ReflTransGen.tail
        (Relation.ReflTransGen.tail reach_c7 trace_step_8) trace_step_9) trace_step_10
  · exact ⟨⟨1, 3, 1, RaftState.Leader, false, 2⟩, by decide,
      ⟨3, 3, 3, RaftState.Leader, false, 2⟩, by decide, by decide, rfl, rfl, rfl⟩

theorem soloInv_step {a b : Config} (h : Step soloIds a b) (inv : soloInv a) :
    soloInv b := by
  obtain ⟨hnodes, hnet⟩ := inv
  cases h with
  | timeout i n hfind harmed =>
      obtain ⟨hid, hst⟩ := hnodes n (List.mem_of_find?_eq_some hfind)
      have hst2 : ({ n with timerArmed := false } : RaftNode).state ≠ RaftState.Leader := hst
      constructor
      · intro m hm
        simp only [setNode, List.mem_map] at hm
        obtain ⟨x, hx, hxm⟩ := hm
        by_cases hxi : x.id = i
        · rw [if_pos hxi] at hxm
          subst hxm
          unfold startElection
          rw [if_neg hst2]
          exact ⟨hid, by simp⟩
        · rw [if_neg hxi] at hxm
          subst hxm
          exact hnodes x hx
      · show a.net ++ rvMsgs (startElection { n with timerArmed := false } soloIds).2 = []
        rw [hnet, List.nil_append]
        unfold startElection
        rw [if_neg hst2]
        simp [rvMsgs, soloIds, hid]
  | deliverReqVote i n args hmem hfind =>
      rw [hnet] at hmem
      exact absurd hmem (List.not_mem_nil _)
  | deliverGrant i t n hmem hfind =>
      rw [hnet] at hmem
      exact absurd hmem (List.not_mem_nil _)
  | deliverHeartbeat i n args hmem hfind =>
      rw [hnet] at hmem
      exact absurd hmem (List.not_mem_nil _)
  | hbTick i n out hfind hsend =>
      obtain ⟨hid, hst⟩ := hnodes n (List.mem_of_find?_eq_some hfind)
      simp [sendHeartbeatsIter, hst] at hsend

theorem solo_reachable_inv : ∀ c : Config, Reachable soloIds solo c → soloInv c := by
  intro c h
  induction h with
  | refl => exact ⟨by decide, rfl⟩
  | tail hab hbc ih => exact soloInv_step hbc ih

/-- Claim C2 counterexample: in the single-node cluster (N = 1), processing
the election timeout leaves the node a Candidate, not a Leader, refuting that
a single-node cluster becomes its own Leader immediately upon starting a
candidacy (quorum floor(1/2)+1 = 1 is already met by the self-vote, but the
code computes no quorum at all). -/
theorem single_node_stays_candidate_cex :
    Step soloIds solo solo1 ∧
    getNode solo1 1 = some ⟨1, 1, 1, RaftState.Candidate, false, 1⟩ ∧
    RaftState.Candidate ≠ RaftState.Leader :=
  ⟨step_congr (@Step.timeout soloIds solo 1 (initNode 1) (by decide) (by decide))
    (by decide), by decide, by decide⟩

/-- Claim C2 amended: a Candidate transitions to Leader exactly when a
vote-grant delivery reaches it while it is still a Candidate; the first grant
suffices and no quorum floor(N/2)+1 over the cluster size is ever computed
(the node state holds no vote tally).  In particular a single-node cluster,
which can never receive a vote grant, never becomes Leader in any reachable
configuration. -/
theorem first_grant_promotes_candidate :
    (∀ n : RaftNode, (receiveVote n).state = RaftState.Leader ↔
      (n.state = RaftState.Candidate ∨ n.state = RaftState.Leader)) ∧
    (∀ n : RaftNode, n.state = RaftState.Candidate →
      receiveVote n = { n with state := RaftState.Leader }) ∧
    (∀ c : Config, Reachable soloIds solo c →
      ∀ m ∈ c.nodes, m.state ≠ RaftState.Leader) := by
  refine ⟨?_, ?_, ?_⟩
  · intro n
    unfold receiveVote
    by_cases h : n.state = RaftState.Candidate
    · rw [if_neg (by simp [h])]
      simp [h]
    · rw [if_pos h]
      constructor
      · intro hl
        exact Or.inr hl
      · intro hl
        cases hl with
        | inl hc => exact absurd hc h
        | inr hl => exact hl
  · intro n h
    unfold receiveVote
    rw [if_neg (by simp [h])]
  · intro c hreach m hm
    exact ((solo_reachable_inv c hreach).1 m hm).2

/-- Claim C2 witness: the amended theorem applied to the sample Candidate and
to the initial single-node cluster. -/
theorem first_grant_promotes_candidate_witness :
    receiveVote sampleCand = { sampleCand with state := RaftState.Leader } ∧
    (initNode 1).state ≠ RaftState.Leader :=
  ⟨first_grant_promotes_candidate.2.1 sampleCand (by decide),
   first_grant_promotes_candidate.2.2 solo Relation.ReflTransGen.refl (initNode 1)
     (by decide)⟩

/-- Claim C3: every event-handling operation leaves currentTerm greater than
or equal to its previous value, and a message bearing a term lower than the
current term leaves the term exactly unchanged.  Confirmed: startElection
increments the term, handleRequestVote and handleHeartbeat only ever replace
it by a strictly or weakly larger incoming term, receiveVote never touches
it. -/
theorem term_never_decreases :
    ∀ (n : RaftNode) (ps : List Int) (rv : RequestVoteArgs) (hb : HeartbeatArgs),
      n.currentTerm ≤ (startElection n ps).1.currentTerm ∧
      n.currentTerm ≤ (handleRequestVote n rv).1.currentTerm ∧
      n.currentTerm ≤ (receiveVote n).currentTerm ∧
      n.currentTerm ≤ (handleHeartbeat n hb).currentTerm ∧
      (rv.Term < n.currentTerm → (handleRequestVote n rv).1.currentTerm = n.currentTerm) ∧
      (hb.Term < n.currentTerm → (handleHeartbeat n hb).currentTerm = n.currentTerm) := by
  intro n ps rv hb
  refine ⟨?_, ?_, ?_, ?_, ?_, ?_⟩
  · unfold startElection
    split_ifs <;> simp
  · unfold handleRequestVote voteGrantCheck resetTimer
    split_ifs <;> simp_all <;> omega
  · unfold receiveVote
    split_ifs <;> simp
  · unfold handleHeartbeat resetTimer
    split_ifs <;> simp <;> omega
  · intro hlt
    unfold handleRequestVote voteGrantCheck resetTimer
    split_ifs <;> simp_all <;> omega
  · intro hlt
    unfold handleHeartbeat
    split_ifs <;> simp_all <;> omega

/-- Claim C3 witness: the monotonicity theorem applied to the sample follower
at term 5 and the stale term-3 messages. -/
theorem term_never_decreases_witness :
    wNode.currentTerm ≤ (handleRequestVote wNode wRV).1.currentTerm ∧
    (handleRequestVote wNode wRV).1.currentTerm = wNode.currentTerm ∧
    (handleHeartbeat wNode wHB).currentTerm = wNode.currentTerm :=
  ⟨(term_never_decreases wNode ids3 wRV wHB).2.1,
   (term_never_decreases wNode ids3 wRV wHB).2.2.2.2.1 (by decide),
   (term_never_decreases wNode ids3 wRV wHB).2.2.2.2.2 (by decide)⟩

/-- Claim C4 counterexample: handleHeartbeat raises the term of hbVictim from
1 to 5 yet keeps votedFor = 3, the vote cast in the old term, refuting that
every operation that increases currentTerm resets votedFor to none (-1):
the heartbeat handler carries the stale vote into the higher term. -/
theorem heartbeat_keeps_stale_vote_cex :
    hbVictim.currentTerm = 1 ∧ hbVictim.votedFor = 3 ∧
    (handleHeartbeat hbVictim hbHigh).currentTerm = 5 ∧
    (handleHeartbeat hbVictim hbHigh).votedFor = 3 ∧
    (3 : Int) ≠ -1 := by decide

/-- Claim C4 amended: startElection overwrites votedFor with the own id of the
node (its vote in the fresh term) and handleRequestVote, when it adopts a
strictly higher term, first clears votedFor and then can only store the new
CandidateID, so neither carries an old vote into a higher term; receiveVote
touches neither term nor vote; handleHeartbeat, however, never touches
votedFor and thus carries the old vote into a strictly higher adopted term. -/
theorem votedFor_on_term_increase :
    (∀ (n : RaftNode) (hb : HeartbeatArgs), (handleHeartbeat n hb).votedFor = n.votedFor) ∧
    (∀ (n : RaftNode) (rv : RequestVoteArgs), rv.Term > n.currentTerm →
      (handleRequestVote n rv).1.votedFor = rv.CandidateID) ∧
    (∀ (n : RaftNode) (ps : List Int), n.state ≠ RaftState.Leader →
      (startElection n ps).1.votedFor = n.id) ∧
    (∀ n : RaftNode, (receiveVote n).votedFor = n.votedFor ∧
      (receiveVote n).currentTerm = n.currentTerm) := by
  refine ⟨?_, ?_, ?_, ?_⟩
  · intro n hb
    unfold handleHeartbeat resetTimer
    split_ifs <;> simp
  · intro n rv hgt
    unfold handleRequestVote voteGrantCheck resetTimer
    split_ifs <;> simp_all
  · intro n ps h
    unfold startElection
    rw [if_neg h]
  · intro n
    unfold receiveVote
    split_ifs <;> simp

/-- Claim C4 witness: the amended theorem applied to the follower that voted
for node 3 in term 1, a RequestVote at term 7, and an election start. -/
theorem votedFor_on_term_increase_witness :
    (handleHeartbeat hbVictim hbHigh).votedFor = hbVictim.votedFor ∧
    (handleRequestVote hbVictim ⟨7, 1⟩).1.votedFor = 1 ∧
    (startElection hbVictim ids3).1.votedFor = 2 :=
  ⟨votedFor_on_term_increase.1 hbVictim hbHigh,
   votedFor_on_term_increase.2.1 hbVictim ⟨7, 1⟩ (by decide),
   votedFor_on_term_increase.2.2.1 hbVictim ids3 (by decide)⟩

/-- Claim C5 counterexample: in the reachable configuration c7, node 1 is a
Candidate at currentTerm 3 while the vote-grant still in flight for it was
cast at term 1 (its ghost grantTerm), i.e. the grant belongs to an earlier
candidacy and not to the current term; delivering it is a legal step and it
does change the state of node 1, promoting it to Leader — the code performs
no staleness check. -/
theorem stale_grant_promotes_cex :
    Reachable ids3 c0 c7 ∧
    getNode c7 1 = some ⟨1, 3, 1, RaftState.Candidate, false, 2⟩ ∧
    Msg.voteGrant 1 1 ∈ c7.net ∧ (1 : Int) ≠ 3 ∧
    Step ids3 c7 c8 ∧
    getNode c8 1 = some ⟨1, 3, 1, RaftState.Leader, false, 2⟩ :=
  ⟨reach_c7, by decide, by decide, by decide, trace_step_8, by decide⟩

/-- Claim C5 amended: a vote grant delivered to a node causes no state change
exactly when the node is no longer a Candidate; the grant carries no term and
receiveVote performs no staleness check, so a grant cast during an earlier
candidacy that arrives while the node is a Candidate at a higher term is not
discarded: it promotes the node to Leader like any other grant. -/
theorem grant_ignores_term :
    (∀ n : RaftNode, n.state ≠ RaftState.Candidate → receiveVote n = n) ∧
    (∀ n : RaftNode, n.state = RaftState.Candidate →
      receiveVote n = { n with state := RaftState.Leader }) ∧
    (∀ n : RaftNode, receiveVote n = n ↔ n.state ≠ RaftState.Candidate) := by
  refine ⟨?_, ?_, ?_⟩
  · intro n h
    unfold receiveVote
    rw [if_pos h]
  · intro n h
    unfold receiveVote
    rw [if_neg (by simp [h])]
  · intro n
    constructor
    · intro he hc
      have : (receiveVote n).state = RaftState.Leader := by
        unfold receiveVote
        rw [if_neg (by simp [hc])]
      rw [he, hc] at this
      cases this
    · intro h
      unfold receiveVote
      rw [if_pos h]

/-- Claim C5 witness: the amended theorem applied to the sample Leader (no
change on a grant) and the sample Candidate (promotion). -/
theorem grant_ignores_term_witness :
    receiveVote demoLeader = demoLeader ∧
    receiveVote sampleCand = { sampleCand with state := RaftState.Leader } :=
  ⟨grant_ignores_term.1 demoLeader (by decide),
   grant_ignores_term.2.1 sampleCand (by decide)⟩

/-- Claim C6: a RequestVote whose term is strictly below the currentTerm of
the receiver is rejected with an unchanged node: the handler returns before
any mutation, so currentTerm, role, votedFor and both timer fields keep
their prior values, the reply carries VoteGranted = false, and no vote-grant
goroutine is spawned.  Confirmed. -/
theorem stale_reqvote_noop :
    ∀ (n : RaftNode) (rv : RequestVoteArgs), rv.Term < n.currentTerm →
      handleRequestVote n rv = (n, ⟨n.currentTerm, false⟩, none) := by
  intro n rv h
  have h2 : ¬(rv.Term > n.currentTerm) := by omega
  unfold handleRequestVote voteGrantCheck
  rw [if_neg h2, if_pos h]

/-- Claim C6 witness: the sample follower at term 5 receiving the term-3
RequestVote. -/
theorem stale_reqvote_noop_witness :
    handleRequestVote wNode wRV = (wNode, ⟨wNode.currentTerm, false⟩, none) :=
  stale_reqvote_noop wNode wRV (by decide)

/-- Claim C7 counterexample: processing the election timeout of node 1 in the
started cluster c0 yields c1, where node 1 is a Candidate at term 1 with
votedFor = 1 as the claim says, but its election timer is left unarmed
(timerArmed = false after the fire was consumed) and timerResets is still the
initial 1: startElection performs no timer reset, refuting the re-arm part of
the claim (a candidacy that fails to reach quorum is therefore not
re-triggered by an own later timeout). -/
theorem start_election_no_rearm_cex :
    Step ids3 c0 c1 ∧
    (initNode 1).timerArmed = true ∧ (initNode 1).timerResets = 1 ∧
    getNode c1 1 = some ⟨1, 1, 1, RaftState.Candidate, false, 1⟩ :=
  ⟨trace_step_1, by decide, by decide, by decide⟩

/-- Claim C7 amended: when a node that is not Leader processes an election
timeout, startElection increments currentTerm by exactly one, sets votedFor
to the own id of the node, becomes Candidate, and emits a RequestVote bearing
the new term to exactly the peers whose id differs from its own — but it does
not re-arm the election timer (both timer fields are untouched); the timer is
re-armed only by granting a vote or accepting a heartbeat. -/
theorem start_election_effects :
    ∀ (n : RaftNode) (ps : List Int), n.state ≠ RaftState.Leader →
      (startElection n ps).1.currentTerm = n.currentTerm + 1 ∧
      (startElection n ps).1.votedFor = n.id ∧
      (startElection n ps).1.state = RaftState.Candidate ∧
      (startElection n ps).1.timerArmed = n.timerArmed ∧
      (startElection n ps).1.timerResets = n.timerResets ∧
      (∀ (p : Int) (a : RequestVoteArgs),
        (p, a) ∈ (startElection n ps).2 ↔
          (p ∈ ps ∧ p ≠ n.id ∧ a = ⟨n.currentTerm + 1, n.id⟩)) := by
  intro n ps h
  unfold startElection
  rw [if_neg h]
  refine ⟨rfl, rfl, rfl, rfl, rfl, ?_⟩
  intro p a
  simp only [List.mem_map, List.mem_filter, Prod.mk.injEq, decide_eq_true_eq]
  constructor
  · rintro ⟨x, ⟨hx, hxne⟩, hxp, hxa⟩
    subst hxp
    exact ⟨hx, hxne, hxa.symm⟩
  · rintro ⟨hp, hpne, ha⟩
    exact ⟨p, ⟨hp, hpne⟩, rfl, ha.symm⟩

/-- Claim C7 witness: the amended theorem applied to the initial node 1 in
the three-node cluster; the RequestVote towards peer 2 carries term 1. -/
theorem start_election_effects_witness :
    (startElection (initNode 1) ids3).1.currentTerm = (initNode 1).currentTerm + 1 ∧
    (startElection (initNode 1) ids3).1.timerResets = (initNode 1).timerResets ∧
    ((2, (⟨1, 1⟩ : RequestVoteArgs)) ∈ (startElection (initNode 1) ids3).2 ↔
      ((2 : Int) ∈ ids3 ∧ (2 : Int) ≠ (initNode 1).id ∧
        (⟨1, 1⟩ : RequestVoteArgs) = ⟨(initNode 1).currentTerm + 1, (initNode 1).id⟩)) :=
  ⟨(start_election_effects (initNode 1) ids3 (by decide)).1,
   (start_election_effects (initNode 1) ids3 (by decide)).2.2.2.2.1,
   (start_election_effects (initNode 1) ids3 (by decide)).2.2.2.2.2 2 ⟨1, 1⟩⟩

/-- Claim C8 counterexample: a Leader at term 1 handling a Heartbeat whose
term equals its own currentTerm does not remain Leader: the handler condition
is args.Term >= currentTerm, so the equal-term heartbeat demotes it to
Follower, refuting that only a strictly greater term causes the
transition. -/
theorem equal_term_heartbeat_demotes_cex :
    demoLeader.state = RaftState.Leader ∧
    (⟨1, 2⟩ : HeartbeatArgs).Term = demoLeader.currentTerm ∧
    (handleHeartbeat demoLeader ⟨1, 2⟩).state = RaftState.Follower ∧
    RaftState.Follower ≠ RaftState.Leader := by decide

/-- Claim C8 amended: a Leader transitions to Follower upon a Heartbeat whose
term is greater than OR EQUAL to its currentTerm (the equal-term case demotes
it too, with currentTerm unchanged), and upon a RequestVote whose term is
strictly greater; a Heartbeat with a strictly lower term leaves it entirely
unchanged, and vote grants and election timeouts never move a Leader. -/
theorem leader_demotion_characterization :
    ∀ (n : RaftNode) (hb : HeartbeatArgs) (rv : RequestVoteArgs) (ps : List Int),
      n.state = RaftState.Leader →
      ((handleHeartbeat n hb).state = RaftState.Follower ↔ hb.Term ≥ n.currentTerm) ∧
      (hb.Term < n.currentTerm → handleHeartbeat n hb = n) ∧
      (hb.Term = n.currentTerm → (handleHeartbeat n hb).currentTerm = n.currentTerm) ∧
      ((handleRequestVote n rv).1.state = RaftState.Follower ↔ rv.Term > n.currentTerm) ∧
      receiveVote n = n ∧
      (startElection n ps).1 = n := by
  intro n hb rv ps hl
  refine ⟨?_, ?_, ?_, ?_, ?_, ?_⟩
  · unfold handleHeartbeat resetTimer
    split_ifs with hc
    · simp [hc]
    · simp only [hl]
      constructor
      · intro he
        cases he
      · intro hge
        exact absurd hge hc
  · intro hlt
    unfold handleHeartbeat
    rw [if_neg (by omega)]
  · intro heq
    unfold handleHeartbeat resetTimer
    split_ifs <;> simp [heq]
  · unfold handleRequestVote voteGrantCheck resetTimer
    split_ifs with hgt hlt hvote <;> simp_all
  · unfold receiveVote
    rw [if_pos (by simp [hl])]
  · unfold startElection
    rw [if_pos hl]

/-- Claim C8 witness: the amended theorem applied to the sample Leader at
term 1 with a stale heartbeat, an equal-term heartbeat, and an election
timeout. -/
theorem leader_demotion_characterization_witness :
    handleHeartbeat demoLeader ⟨0, 2⟩ = demoLeader ∧
    (handleHeartbeat demoLeader ⟨1, 2⟩).currentTerm = demoLeader.currentTerm ∧
    receiveVote demoLeader = demoLeader ∧
    (startElection demoLeader ids3).1 = demoLeader :=
  ⟨(leader_demotion_characterization demoLeader ⟨0, 2⟩ ⟨0, 2⟩ ids3 rfl).2.1 (by decide),
   (leader_demotion_characterization demoLeader ⟨1, 2⟩ ⟨0, 2⟩ ids3 rfl).2.2.1 (by decide),
   (leader_demotion_characterization demoLeader ⟨0, 2⟩ ⟨0, 2⟩ ids3 rfl).2.2.2.2.1,
   (leader_demotion_characterization demoLeader ⟨0, 2⟩ ⟨0, 2⟩ ids3 rfl).2.2.2.2.2⟩

/-- Claim C9: an iteration of the sendHeartbeats loop whose initially
observed role is not Leader sends no heartbeat batch: the guard at the top of
the loop body returns (none) before any send, so a demoted node emits nothing
from the first iteration after demotion onwards, i.e. broadcasting stops
within one heartbeat interval.  Confirmed. -/
theorem no_heartbeat_batch_when_not_leader :
    ∀ (n : RaftNode) (ps : List Int), n.state ≠ RaftState.Leader →
      sendHeartbeatsIter n ps = none := by
  intro n ps h
  unfold sendHeartbeatsIter
  rw [if_pos h]

/-- Claim C9 witness: the demoted follower hbVictim sends no batch. -/
theorem no_heartbeat_batch_when_not_leader_witness :
    sendHeartbeatsIter hbVictim ids3 = none :=
  no_heartbeat_batch_when_not_leader hbVictim ids3 (by decide)

/-- Claim C10: getPeer returns some peer exactly when a node with the given
id exists in the peers list (and nil/none otherwise), so the grant path
getPeer(CandidateID).receiveVote(), which performs no nil check, is free of a
nil dereference exactly under the precondition that the CandidateID equals
the id of some node in the peers list.  Confirmed. -/
theorem getPeer_some_iff_peer_exists :
    ∀ (ps : List RaftNode) (i : Int),
      ((getPeer ps i).isSome = true ↔ ∃ p, p ∈ ps ∧ p.id = i) ∧
      (getPeer ps i = none ↔ ∀ p ∈ ps, p.id ≠ i) ∧
      ((grantPath ps i).isSome = true ↔ ∃ p, p ∈ ps ∧ p.id = i) := by
  intro ps i
  have hmain : (getPeer ps i).isSome = true ↔ ∃ p, p ∈ ps ∧ p.id = i := by
    induction ps with
    | nil => simp [getPeer]
    | cons q qs ih =>
        by_cases hq : q.id = i
        · simp [getPeer, hq]
        · simp only [getPeer, if_neg hq, List.mem_cons]
          rw [ih]
          constructor
          · rintro ⟨p, hp, hpi⟩
            exact ⟨p, Or.inr hp, hpi⟩
          · rintro ⟨p, hp | hp, hpi⟩
            · exact absurd (hp ▸ hpi) hq
            · exact ⟨p, hp, hpi⟩
  refine ⟨hmain, ?_, ?_⟩
  · rw [← Option.not_isSome_iff_eq_none]
    constructor
    · intro hnone p hp hpi
      exact hnone (hmain.mpr ⟨p, hp, hpi⟩)
    · intro hall hsome
      obtain ⟨p, hp, hpi⟩ := hmain.mp hsome
      exact hall p hp hpi
  · have hms : (Option.map receiveVote (getPeer ps i)).isSome = (getPeer ps i).isSome := by
      cases getPeer ps i <;> rfl
    unfold grantPath
    rw [hms]
    exact hmain

/-- Claim C10 witness: in the two-node peers list, looking up id 2 succeeds
and the grant path is safe; the theorem applied at that concrete input. -/
theorem getPeer_some_iff_peer_exists_witness :
    (getPeer [initNode 1, initNode 2] 2).isSome = true ∧
    (grantPath [initNode 1, initNode 2] 2).isSome = true :=
  ⟨(getPeer_some_iff_peer_exists [initNode 1, initNode 2] 2).1.mpr
      ⟨initNode 2, by decide, by decide⟩,
   (getPeer_some_iff_peer_exists [initNode 1, initNode 2] 2).2.2.mpr
      ⟨initNode 2, by decide, by decide⟩⟩

end Raft
